import Mathlib

/-!
Verification of the JIT kernel dispatch runtime (libtriton_jit).

This file is a shallow embedding of the runtime's core components:

* the argument classifier / signature builder
  (`include/triton_jit/triton_jit_function_impl.h`, `struct ArgHandle`),
* the overload cache of a JIT entry point
  (`src/triton_jit_function_impl.cpp`, `TritonJITFunctionImpl::get_kernel`),
* the lazily loaded kernel handle
  (`include/triton_jit/triton_kernel_impl.h`, `TritonKernelImpl`),
* the CUDA backend's artifact loader and shared-memory configuration
  (`include/triton_jit/backends/cuda_backend.h`),
* the NPU backend's signature parsing and packed argument buffer
  (`include/triton_jit/backends/npu_backend.h`).

Machine integers are modelled as `Nat`/`Int` with explicit reductions
modulo `2 ^ w` where the source can overflow.  Byte buffers are lists of
byte values (`Nat`, little-endian, as on the target platforms).  Fallible
code returns `Except String`.
-/

namespace TritonJitVerif

/-! ## Byte-level helpers -/

/-- Little-endian byte list of length `n` for the value `v` (reduced mod `2^(8*n)`),
modelling how `memcpy` lays an `n`-byte machine value into a buffer. -/
def leBytes : Nat → Nat → List Nat
  | 0, _ => []
  | n + 1, v => (v % 256) :: leBytes n (v / 256)

theorem leBytes_length (n v : Nat) : (leBytes n v).length = n := by
  induction n generalizing v with
  | zero => rfl
  | succ n ih => simp [leBytes, ih]

/-- Round `pos` up to a multiple of `alignment`.  The source computes
`(pos + alignment - 1) & ~(alignment - 1)` (`NpuArgBuffer::align_to`); for the
power-of-two alignments used there (4 and 8) this equals the formula below. -/
def alignUp (pos alignment : Nat) : Nat :=
  ((pos + alignment - 1) / alignment) * alignment

theorem le_alignUp (pos a : Nat) (h : 0 < a) : pos ≤ alignUp pos a := by
  have hdm := Nat.div_add_mod (pos + a - 1) a
  have hmlt : (pos + a - 1) % a < a := Nat.mod_lt _ h
  have hcomm : a * ((pos + a - 1) / a) = ((pos + a - 1) / a) * a := Nat.mul_comm _ _
  unfold alignUp
  omega

/-! ## NPU backend: argument types and signature parsing
(`include/triton_jit/backends/npu_backend.h`) -/

/-- `enum class NpuArgType`. -/
inductive NpuArgType where
  | POINTER
  | I32
  | I64
  | F32
  | F64
deriving DecidableEq, Repr

/-- `NpuArgInfo::get_size`: byte size of each argument type
(`sizeof(void*) = 8`, `sizeof(int32_t) = 4`, ...). -/
def NpuArgType.size : NpuArgType → Nat
  | .POINTER => 8
  | .I32 => 4
  | .I64 => 8
  | .F32 => 4
  | .F64 => 8

/-- `NpuArgInfo::get_align`: natural alignment of each argument type
(`alignof(void*) = 8`, `alignof(int32_t) = 4`, ...). -/
def NpuArgType.align : NpuArgType → Nat
  | .POINTER => 8
  | .I32 => 4
  | .I64 => 8
  | .F32 => 4
  | .F64 => 8

/-- `struct NpuArgInfo` (the `size` field always holds `get_size type` at the
places the source fills it in, so we keep only the type tag plus that size). -/
structure NpuArgInfo where
  type : NpuArgType
  size : Nat
deriving DecidableEq, Repr

/-- Whitespace characters used by `token.find_first_not_of(" \t")`. -/
def isTokWs (c : Char) : Bool :=
  c = ' ' || c = '\t'

/-- `std::isdigit`. -/
def isDigitCh (c : Char) : Bool :=
  '0' ≤ c && c ≤ '9'

/-- Trim leading and trailing spaces/tabs from a token, as in
`parse_signature` (`find_first_not_of(" \t")` / `find_last_not_of(" \t")`). -/
def trimTok (cs : List Char) : List Char :=
  ((cs.dropWhile isTokWs).reverse.dropWhile isTokWs).reverse

/-- Classification of one already-trimmed, non-empty token in
`parse_signature`: skip `"nullopt"` and numeric literals, strip a `:`
specialization suffix, then map the type prefix to an `NpuArgInfo`
(unknown prefixes default to `I64`). -/
def classifyTok (tok : List Char) : Option NpuArgInfo :=
  if tok = "nullopt".toList then none
  else
    -- bool is_number = !token.empty() && (isdigit(token[0]) ||
    --                  (token[0] == '-' && token.size() > 1 && isdigit(token[1])));
    let isNumber :=
      match tok with
      | [] => false
      | c :: rest =>
        isDigitCh c ||
          (c = '-' && decide (rest.length + 1 > 1) && (match rest with
            | [] => false
            | c2 :: _ => isDigitCh c2))
    if isNumber then none
    else
      -- size_t colon_pos = token.find(':'); token = token.substr(0, colon_pos);
      let tok := tok.takeWhile (fun c => c ≠ ':')
      match tok with
      | '*' :: _ => some ⟨.POINTER, 8⟩
      | _ =>
        if tok.take 3 = "i64".toList ∨ tok.take 3 = "u64".toList then
          some ⟨.I64, 8⟩
        else if tok.take 3 = "i32".toList ∨ tok.take 3 = "u32".toList then
          some ⟨.I32, 4⟩
        else if tok.take 4 = "fp64".toList ∨ tok.take 3 = "f64".toList then
          some ⟨.F64, 8⟩
        else if tok.take 4 = "fp32".toList ∨ tok.take 3 = "f32".toList then
          some ⟨.F32, 4⟩
        else if tok.take 4 = "fp16".toList ∨ tok.take 3 = "f16".toList ∨
            tok.take 4 = "bf16".toList then
          -- fp16/bf16 scalars are promoted to fp32
          some ⟨.F32, 4⟩
        else
          -- Default to i64 for unknown types
          some ⟨.I64, 8⟩

/-- One token of `parse_signature`'s loop body: trim, skip when all
whitespace or empty, then classify. -/
def parseTok (tok : List Char) : Option NpuArgInfo :=
  match trimTok tok with
  | [] => none
  | cs => classifyTok cs

/-- Split a character list at `','`, as `std::getline(ss, token, ',')`
does (an empty input yields one empty token where `getline` yields none,
but empty tokens are skipped by `parseTok` either way). -/
def splitOnComma : List Char → List (List Char)
  | [] => [[]]
  | c :: cs =>
    if c = ',' then [] :: splitOnComma cs
    else
      match splitOnComma cs with
      | [] => [[c]]
      | t :: ts => (c :: t) :: ts

/-- `parse_signature(const std::string&)`: split at `','` and collect the
classified tokens. -/
def parse_signature (sig : String) : List NpuArgInfo :=
  (splitOnComma sig.toList).filterMap parseTok

/-! ## NPU backend: packed argument buffer (`class NpuArgBuffer`)

A launch-payload slot (`void** args` entry) is modelled by the typed value the
slot points at: a pointer slot, an integer slot of a given byte width, or a
floating slot carried as its raw bit pattern of a given byte width (no
floating-point arithmetic happens anywhere; the buffer code only `memcpy`s the
representation). -/

/-- One entry of the classifier's `kernel_args` array: the typed object a
`void*` slot points to. -/
inductive KArg where
  /-- a `void*` cell holding the address `a` (e.g. a tensor data pointer or
  the global-scratch `nullptr`) -/
  | ptr (a : Nat)
  /-- an integral object of byte width `sz` holding `v` -/
  | ival (v : Int) (sz : Nat)
  /-- a floating object of byte width `sz` with bit pattern `bits` -/
  | fval (bits : Nat) (sz : Nat)
deriving DecidableEq, Repr

/-- Object representation (little-endian bytes) of a slot's content. -/
def KArg.bytes : KArg → List Nat
  | .ptr a => leBytes 8 a
  | .ival v sz => leBytes sz (v.emod (2 ^ (8 * sz))).toNat
  | .fval bits sz => leBytes sz bits

theorem KArg.bytes_ptr_length (a : Nat) : (KArg.ptr a).bytes.length = 8 := by
  simp [KArg.bytes, leBytes_length]

/-- `*reinterpret_cast<T*>(arg_ptr)` in `push_arg_by_type`: read the first
`t.size` bytes of the object.  Reading more bytes than the object has is
undefined behaviour in the source; the model refuses to assign it a value. -/
def readAs (k : KArg) (t : NpuArgType) : Option (List Nat) :=
  if t.size ≤ k.bytes.length then some (k.bytes.take t.size) else none

/-- `NpuArgBuffer::push_arg<T>`: round the cursor up to the value's alignment
(the skipped gap keeps the zero bytes `std::vector::resize` put there) and
append the value's bytes.  The buffer is represented by its contents
`[0, cursor)`; the cursor is the list length. -/
def pushBytes (buf : List Nat) (valBytes : List Nat) (align : Nat) : List Nat :=
  buf ++ List.replicate (alignUp buf.length align - buf.length) 0 ++ valBytes

/-- `NpuArgBuffer::push_arg_by_type`: dispatch on the layout entry's type and
push the reinterpreted value. -/
def push_arg_by_type (buf : List Nat) (k : KArg) (t : NpuArgType) :
    Except String (List Nat) :=
  match readAs k t with
  | some bs => .ok (pushBytes buf bs t.align)
  | none => .error "push_arg_by_type: read past the end of the argument object"

/-- `NpuArgBuffer::push_args_from_layout`: pair `args[i]` with `layout[i]`
for `i < layout.size()`; a null `args[i]` is skipped (the loop still advances);
reading `args[i]` past the end of the array is undefined behaviour. -/
def push_args_from_layout (buf : List Nat) :
    List (Option KArg) → List NpuArgInfo → Except String (List Nat)
  | _, [] => .ok buf
  | [], _ :: _ => .error "push_args_from_layout: args index out of bounds"
  | none :: as_, _ :: ls => push_args_from_layout buf as_ ls
  | some a :: as_, l :: ls => do
    let buf' ← push_arg_by_type buf a l.type
    push_args_from_layout buf' as_ ls

/-- `NpuArgBuffer::set_system_args(ffts, nullptr, nullptr)` writes the three
8-byte system words at offsets 0, 8, 16; the user cursor starts at 24. -/
def sysBytes (ffts : Nat) : List Nat :=
  leBytes 8 ffts ++ leBytes 8 0 ++ leBytes 8 0

theorem sysBytes_length (ffts : Nat) : (sysBytes ffts).length = 24 := by
  simp [sysBytes, leBytes_length]

/-- `NpuArgBuffer::set_grid`: align the cursor to 4 and append
`gridX, gridY, gridZ` as three 32-bit integers (`static_cast<int32_t>`,
i.e. reduced mod `2^32`). -/
def setGrid (buf : List Nat) (gx gy gz : Nat) : List Nat :=
  pushBytes buf (leBytes 4 (gx % 2 ^ 32) ++ leBytes 4 (gy % 2 ^ 32) ++
    leBytes 4 (gz % 2 ^ 32)) 4

/-- Result handed to `rtKernelLaunch` by `NpuBackend::launch_kernel`. -/
structure NpuLaunchRec where
  blockNum : Nat
  buffer : List Nat
deriving DecidableEq, Repr

/-- `NpuBackend::WARP_SIZE`. -/
def npuWarpSize : Nat := 1

/-- `NpuBackend::launch_kernel` (buffer-building part).  `ffts` is the
address `rtGetC2cCtrlAddr` returned (its failure path aborts before any
buffer is built, so the model takes the acquired address as input).  The
block dimensions `block_x/y/z` are accepted but — as in the source — unused:
the block count is the grid product, reduced mod `2^32`
(`uint32_t blockNum = grid_x * grid_y * grid_z`). -/
def npu_launch_kernel (ffts : Nat) (gx gy gz _bx _by _bz : Nat)
    (args : Option (List (Option KArg))) (signature : String)
    (arg_layout : Option (List NpuArgInfo)) : Except String NpuLaunchRec := do
  let blockNum := (gx * gy * gz) % 2 ^ 32
  let layout ←
    match arg_layout with
    | some l =>
      if l ≠ [] then pure l
      else if signature ≠ "" then pure (parse_signature signature)
      else Except.error "launch_kernel: no signature or arg_layout provided"
    | none =>
      if signature ≠ "" then pure (parse_signature signature)
      else Except.error "launch_kernel: no signature or arg_layout provided"
  let buf0 := sysBytes ffts
  let buf1 ←
    match args with
    | some a => push_args_from_layout buf0 a layout
    | none => pure buf0  -- source logs a warning and launches without user args
  let buf2 := setGrid buf1 gx gy gz
  .ok ⟨blockNum, buf2⟩

/-! ## Argument classifier / signature builder
(`include/triton_jit/triton_jit_function_impl.h`, `struct ArgHandle`) -/

/-- `enum struct ArgType`. -/
inductive ArgType where
  | NON_CONSTEXPR
  | SPECIALIZED
  | CONSTEXPR
deriving DecidableEq, Repr

/-- `struct StaticSignature`. -/
structure StaticSignature where
  num_args : Int
  arg_type : List ArgType
deriving DecidableEq, Repr

/-- `StaticSignature::at` (`std::vector::at`, which throws on
out-of-range indices). -/
def StaticSignature.atIdx (s : StaticSignature) (i : Nat) : Except String ArgType :=
  match s.arg_type[i]? with
  | some t => .ok t
  | none => .error "StaticSignature::at: index out of range"

/-- Modelled from the spec: the repository's `jit_utils.h` (with `spec()` for
integral scalars) is not under `src/`.  Spec §3: an integer scalar value 1
classified SPECIALIZED becomes `<T>:1`; a value fitting a signed 32-bit
integer becomes `<T>:i32`; any other value leaves the token unmodified. -/
def specIntStr (v : Int) : String :=
  if v = 1 then ":1"
  else if -(2 ^ 31) ≤ v ∧ v < 2 ^ 31 then ":i32"
  else ""

/-- Modelled from the spec: the repository's `jit_utils.h` (with `spec()` for
pointers) is not under `src/`.  Spec §3/§8: a SPECIALIZED tensor whose data
address is a multiple of 16 bytes gets the `:16` suffix; any other address
gets none. -/
def specPtrStr (addr : Nat) : String :=
  if addr % 16 = 0 then ":16" else ""

/-- One argument of the variadic pack handed to `ArgHandle::handle_arg`.
A tensor is represented by the capability interface the classifier uses:
its element dtype's canonical name is replaced by the string
`to_triton_typename` would produce, and its data address.  A scalar carries
the name `triton_type<T>::name` of its C++ type, its value, and `sizeof(T)`.
For non-integral scalars the printed literal `fmt::format("{}", item)` is
carried as an uninterpreted input (`lit`), since only CONSTEXPR handling
consumes it.  `std::optional` presence/absence gets its own constructors. -/
inductive ArgVal where
  | tensor (dtype : String) (addr : Nat)
  | intArg (dtype : String) (v : Int) (sz : Nat)
  | floatArg (dtype : String) (bits : Nat) (lit : String) (sz : Nat)
  | optSome (inner : ArgVal)
  | optNone
deriving DecidableEq, Repr

/-- The mutable state of `struct ArgHandle`: the collected data pointers,
the launch payload (`kernel_args`), the signature tokens, and the
static-signature cursor `idx`. -/
structure ClfState where
  data_pointers : List Nat
  kernel_args : List KArg
  signature : List String
  idx : Nat
deriving DecidableEq, Repr

/-- `ArgHandle::handle_arg` (with `handle_optional`, `handle_arg_plain`,
`handle_tensor`, `handle_constexpr`, `handle_specialized`,
`handle_non_constexpr` inlined as in the source's dispatch):

* a present optional recurses on the contained value;
* an absent optional pushes the token `"nullopt"` and advances `idx`
  (the `idx++` at the end of `handle_arg_plain`);
* a tensor must not be CONSTEXPR (`TORCH_CHECK`); its address goes to
  `data_pointers` and (via the slot pointer) to `kernel_args`; the token is
  `*<dtype>` plus `:16` when SPECIALIZED and 16-byte aligned;
* a CONSTEXPR scalar pushes only its printed literal;
* a SPECIALIZED integral scalar pushes `<T><spec>` and, unless the
  specialization is `":1"`, its value to `kernel_args`;
* a SPECIALIZED non-integral or NON_CONSTEXPR scalar pushes `<T>` and its
  value. -/
def handleArg (ssig : StaticSignature) : ArgVal → ClfState → Except String ClfState
  | .optSome v, s => handleArg ssig v s
  | .optNone, s =>
    .ok { s with signature := s.signature ++ ["nullopt"], idx := s.idx + 1 }
  | .tensor dtype addr, s => do
    let t ← ssig.atIdx s.idx
    if t = .CONSTEXPR then
      .error "TORCH_CHECK failed: tensor argument classified CONSTEXPR"
    else
      let sp := if t = .SPECIALIZED then specPtrStr addr else ""
      .ok { s with
        data_pointers := s.data_pointers ++ [addr],
        kernel_args := s.kernel_args ++ [.ptr addr],
        signature := s.signature ++ ["*" ++ dtype ++ sp],
        idx := s.idx + 1 }
  | .intArg dtype v sz, s => do
    let t ← ssig.atIdx s.idx
    match t with
    | .CONSTEXPR =>
      .ok { s with signature := s.signature ++ [toString v], idx := s.idx + 1 }
    | .SPECIALIZED =>
      let sp := specIntStr v
      let ka := if sp ≠ ":1" then s.kernel_args ++ [.ival v sz] else s.kernel_args
      .ok { s with
        kernel_args := ka,
        signature := s.signature ++ [dtype ++ sp],
        idx := s.idx + 1 }
    | .NON_CONSTEXPR =>
      .ok { s with
        kernel_args := s.kernel_args ++ [.ival v sz],
        signature := s.signature ++ [dtype],
        idx := s.idx + 1 }
  | .floatArg dtype bits lit sz, s => do
    let t ← ssig.atIdx s.idx
    match t with
    | .CONSTEXPR =>
      .ok { s with signature := s.signature ++ [lit], idx := s.idx + 1 }
    | .SPECIALIZED =>
      .ok { s with
        kernel_args := s.kernel_args ++ [.fval bits sz],
        signature := s.signature ++ [dtype],
        idx := s.idx + 1 }
    | .NON_CONSTEXPR =>
      .ok { s with
        kernel_args := s.kernel_args ++ [.fval bits sz],
        signature := s.signature ++ [dtype],
        idx := s.idx + 1 }

/-- The argument-processing part of `TritonJITFunctionImpl::operator()`:
fold the handler over the pack starting from empty storage, then push the
global-scratch sentinel (a null pointer) as the implicit trailing argument. -/
def classifyPack (ssig : StaticSignature) (args : List ArgVal) :
    Except String ClfState := do
  let s ← args.foldlM (fun s a => handleArg ssig a s)
    (⟨[], [], [], 0⟩ : ClfState)
  .ok { s with
    data_pointers := s.data_pointers ++ [0],
    kernel_args := s.kernel_args ++ [.ptr 0] }

/-- Joining the tokens with `","` into `full_signature`. -/
def joinSig (tokens : List String) : String :=
  String.intercalate "," tokens

/-! ## Kernel handle (`include/triton_jit/triton_kernel_impl.h`) -/

/-- `TritonKernelImpl`'s fields: artifact directory, entry name, the
lazy-load flag and the backend handle (a `Nat` stands for the backend's
opaque kernel handle). -/
structure TKernel where
  dir : String
  kname : String
  loaded : Bool
  handle : Option Nat
deriving DecidableEq, Repr

/-- The two-argument constructor: `loaded_` starts `false`. -/
def mkTKernel (dir kname : String) : TKernel :=
  ⟨dir, kname, false, none⟩

/-- `TritonKernelImpl::lazy_init_handle`, with `Backend::load_kernel`'s
outcome for this call supplied as `loadFn`.  Returns the updated kernel and
whether the load was invoked.  When the load raises, no field is assigned
(`loaded_ = true` comes after the assignment in the source), so the caller's
state is unchanged. -/
def lazy_init_handle (loadFn : Except String Nat) (k : TKernel) :
    Except String (TKernel × Bool) :=
  if k.loaded then .ok (k, false)
  else
    match loadFn with
    | .error e => .error e
    | .ok h => .ok ({ k with handle := some h, loaded := true }, true)

/-- What `launch_with_signature` passes to the backend. -/
structure LaunchRec where
  blockX : Nat
  blockY : Nat
  blockZ : Nat
  gridX : Nat
  gridY : Nat
  gridZ : Nat
  sharedMemory : Nat
deriving DecidableEq, Repr

/-- `TritonKernelImpl::launch_with_signature` (the backend-generic part):
lazily initialize the handle, compute block dimensions
`(num_warps * Backend::WARP_SIZE, 1, 1)`, fetch the artifact's shared-memory
size, and forward everything to the backend.  `warpSize` is the backend's
`WARP_SIZE` constant, `sharedMem` the value `Backend::get_shared_memory`
returns for this artifact.  The result carries the possibly-updated kernel,
the launch record, and whether a backend load happened during this call. -/
def launch_with_signature (warpSize : Nat) (loadFn : Except String Nat)
    (sharedMem : Nat) (k : TKernel) (gx gy gz warps : Nat) :
    Except String (TKernel × LaunchRec × Bool) :=
  match lazy_init_handle loadFn k with
  | .error e => .error e
  | .ok (k', invoked) =>
    .ok (k', ⟨warps * warpSize, 1, 1, gx, gy, gz, sharedMem⟩, invoked)

/-! ## JIT entry point overload cache
(`src/triton_jit_function_impl.cpp`, `TritonJITFunctionImpl::get_kernel`) -/

/-- The entry installed in `overloads_` for one specialization. -/
structure KernelEntry where
  dir : String
  kname : String
deriving DecidableEq, Repr

/-- `fmt::format("{};{}", signature, device_index)` — note that `num_warps`
and `num_stages` are not part of the key. -/
def kernelKey (signature : String) (device : Int) : String :=
  signature ++ ";" ++ toString device

/-- `std::unordered_map::find` on the overload cache, modelled as an
association list (insertion order is irrelevant to the claims). -/
def lookupCache : List (String × KernelEntry) → String → Option KernelEntry
  | [], _ => none
  | (k, v) :: rest, key => if k = key then some v else lookupCache rest key

/-- Result of one `get_kernel` call: the returned kernel (or the propagated
compiler error), the cache afterwards, and how many times
`standalone_compile.compile_a_kernel` was invoked during the call. -/
structure GetKernelRes where
  result : Except String KernelEntry
  cache : List (String × KernelEntry)
  compiles : Nat
deriving Repr

/-- `TritonJITFunctionImpl::get_kernel`: look the key up; on a miss invoke the
compiler bridge (`compileFn signature num_warps num_stages device_index`,
returning the artifact directory), construct a kernel over the returned
directory and emplace it.  A bridge failure is rethrown before anything is
installed.  The emplace-failure branch (`result.second == false`) throws. -/
def get_kernel (compileFn : String → Int → Int → Int → Except String String)
    (fname : String) (cache : List (String × KernelEntry))
    (signature : String) (num_warps num_stages device_index : Int) :
    GetKernelRes :=
  let key := kernelKey signature device_index
  match lookupCache cache key with
  | some k => ⟨.ok k, cache, 0⟩
  | none =>
    match compileFn signature num_warps num_stages device_index with
    | .error e => ⟨.error e, cache, 1⟩
    | .ok cache_dir =>
      let k : KernelEntry := ⟨cache_dir, fname⟩
      if (lookupCache cache key).isSome then
        ⟨.error "Unable to emplace the kernel into TritonJITFunction cache",
          cache, 1⟩
      else
        ⟨.ok k, cache ++ [(key, k)], 1⟩

/-! ### Interleaved execution of `get_kernel` by two threads

`overloads_` is a plain `mutable std::unordered_map` with no mutex
(`triton_jit_function_impl.h:199`); nothing serializes the body of
`get_kernel`.  To examine the at-most-once-compile contract we split the body
into its three shared-state actions — the lookup, the bridge call, and the
emplace — and let two callers with the same `(signature, device)` interleave
them (this is generous to the source: it even treats each map operation as
atomic, where the real code has a data race). -/

/-- Program counter of one caller inside `get_kernel`. -/
inductive TPC where
  | atFind
  | atCompile
  | atEmplace (dir : String)
  | finished (k : KernelEntry)
  | raised (msg : String)
deriving DecidableEq, Repr

/-- Shared cache plus both callers' program counters and the number of
bridge compilations performed so far. -/
structure CState where
  cache : List (String × KernelEntry)
  t0 : TPC
  t1 : TPC
  compiles : Nat
deriving DecidableEq, Repr

/-- One atomic action of one caller (both call with the same key; the
bridge deterministically returns `compileDir`). -/
def threadStep (compileDir fname key : String)
    (pc : TPC) (cache : List (String × KernelEntry)) :
    TPC × List (String × KernelEntry) × Nat :=
  match pc with
  | .atFind =>
    match lookupCache cache key with
    | some k => (.finished k, cache, 0)
    | none => (.atCompile, cache, 0)
  | .atCompile => (.atEmplace compileDir, cache, 1)
  | .atEmplace dir =>
    if (lookupCache cache key).isSome then
      (.raised "Unable to emplace the kernel into TritonJITFunction cache",
        cache, 0)
    else
      let k : KernelEntry := ⟨dir, fname⟩
      (.finished k, cache ++ [(key, k)], 0)
  | pc => (pc, cache, 0)

/-- Run a schedule (`false` = caller 0 acts, `true` = caller 1 acts). -/
def runSched (compileDir fname key : String) :
    List Bool → CState → CState
  | [], s => s
  | tid :: rest, s =>
    let s' :=
      if tid then
        let (pc, c, n) := threadStep compileDir fname key s.t1 s.cache
        { s with t1 := pc, cache := c, compiles := s.compiles + n }
      else
        let (pc, c, n) := threadStep compileDir fname key s.t0 s.cache
        { s with t0 := pc, cache := c, compiles := s.compiles + n }
    runSched compileDir fname key rest s'

/-! ## CUDA backend (`include/triton_jit/backends/cuda_backend.h`) -/

/-- The device attributes `CudaBackend::load_kernel` and
`configure_shared_memory` query.  The attributes are `int`s in the driver
API; on real devices they are non-negative, and the unsigned comparison in
the source makes a negative opt-in limit behave like a huge one, so the model
uses `Nat`. -/
structure CudaDevice where
  major : Nat
  minor : Nat
  sharedOptin : Nat
  sharedTotal : Nat
deriving DecidableEq, Repr

/-- `struct CudaKernelMetadata`: the `shared` and `target.arch` fields of the
artifact's JSON. -/
structure CudaKernelMetadata where
  shared : Nat
  arch : Nat
deriving DecidableEq, Repr

/-- The observable outcome of `configure_shared_memory` on the kernel:
whether `cuFuncSetCacheConfig(…, CU_FUNC_CACHE_PREFER_SHARED)` ran, and the
value given to `CU_FUNC_ATTRIBUTE_MAX_DYNAMIC_SHARED_SIZE_BYTES` (if any). -/
structure CudaFnConfig where
  preferShared : Bool
  maxDynamicShared : Option Int
deriving DecidableEq, Repr

/-- `CudaBackend::configure_shared_memory`.  `sharedStatic` is the kernel's
`CU_FUNC_ATTRIBUTE_SHARED_SIZE_BYTES`. -/
def configure_shared_memory (dev : CudaDevice) (sharedStatic : Nat)
    (required_shared : Nat) : Except String CudaFnConfig :=
  if required_shared > dev.sharedOptin then
    .error ("OutOfResources: Requested shared memory (" ++
      toString required_shared ++ " bytes) exceeds GPU's maximum (" ++
      toString dev.sharedOptin ++ " bytes)")
  else if required_shared > 49152 ∧ dev.sharedOptin > 49152 then
    .ok ⟨true, some ((dev.sharedOptin : Int) - (sharedStatic : Int))⟩
  else
    .ok ⟨false, none⟩

/-- `CudaBackend::load_kernel` on a not-yet-cached `(dir, entry)` key:
read the metadata (`none` models a missing/unreadable metadata file), check
the device architecture `major*10 + minor` against `target.arch`, load the
module (`moduleLoadOk` models `cuModuleLoad` succeeding), and configure
shared memory.  Driver attribute queries are taken from `dev`. -/
def cuda_load_kernel (dev : CudaDevice) (meta : Option CudaKernelMetadata)
    (moduleLoadOk : Bool) (sharedStatic : Nat) :
    Except String CudaFnConfig :=
  match meta with
  | none => .error "Failed to open metadata file"
  | some m =>
    let device_arch := dev.major * 10 + dev.minor
    if device_arch ≠ m.arch then
      .error ("Compute architecture mismatch! Device has sm_" ++
        (toString device_arch ++
          (", kernel requires sm_" ++ toString m.arch)))
    else if ¬ moduleLoadOk then
      .error "CUDA error: cuModuleLoad failed"
    else
      configure_shared_memory dev sharedStatic m.shared

/-- Substring containment, for the "precise diagnostic" clauses. -/
def strContains (s sub : String) : Prop :=
  ∃ p q, s = p ++ (sub ++ q)

/-! ## Shared lemmas -/

/-- Byte width of the object a slot points at. -/
def KArg.width : KArg → Nat
  | .ptr _ => 8
  | .ival _ sz => sz
  | .fval _ sz => sz

theorem KArg.bytes_length (k : KArg) : k.bytes.length = k.width := by
  cases k <;> simp [KArg.bytes, KArg.width, leBytes_length]

/-- A launch-payload slot is type-compatible with a layout entry when the
object it points at has exactly the machine type the layout announces (so
`push_arg_by_type`'s `reinterpret_cast` reads the whole object and nothing
else). -/
def slotMatches : KArg → NpuArgType → Bool
  | .ptr _, .POINTER => true
  | .ival _ sz, .I32 => sz == 4
  | .ival _ sz, .I64 => sz == 8
  | .fval _ sz, .F32 => sz == 4
  | .fval _ sz, .F64 => sz == 8
  | _, _ => false

/-- The first `layout.length` slots of `args` are present (non-null) and
type-compatible with the layout, entry by entry. -/
def layoutMatches : List NpuArgInfo → List (Option KArg) → Bool
  | [], _ => true
  | _ :: _, [] => false
  | _ :: _, none :: _ => false
  | l :: ls, some a :: as_ => slotMatches a l.type && layoutMatches ls as_

theorem NpuArgType.align_pos (t : NpuArgType) : 0 < t.align := by
  cases t <;> simp [NpuArgType.align]

theorem slotMatches_readAs (a : KArg) (t : NpuArgType)
    (h : slotMatches a t = true) :
    readAs a t = some a.bytes ∧ a.bytes.length = t.size := by
  cases a <;> cases t <;>
    simp_all [slotMatches, readAs, KArg.bytes_length, KArg.width,
      NpuArgType.size, List.take_of_length_le]

/-- Reference (specification-side) packing of the user arguments: starting at
offset `off`, lay the slots out in declaration order, padding each one up to
its layout entry's natural alignment — exactly the byte image §4.1.2 of the
spec describes for the `[24..)` region. -/
def refPack : Nat → List NpuArgInfo → List (Option KArg) → List Nat
  | _, [], _ => []
  | _, _ :: _, [] => []
  | off, l :: ls, some a :: as_ =>
    List.replicate (alignUp off l.type.align - off) 0 ++
      (a.bytes ++ refPack (alignUp off l.type.align + l.type.size) ls as_)
  | off, _ :: ls, none :: as_ => refPack off ls as_

theorem pushBytes_length (buf valBytes : List Nat) (al : Nat) (h : 0 < al) :
    (pushBytes buf valBytes al).length =
      alignUp buf.length al + valBytes.length := by
  have := le_alignUp buf.length al h
  simp [pushBytes]
  omega

/-- The buffer-filling loop agrees with the reference packing whenever the
slots are present and type-compatible with the layout. -/
theorem push_args_from_layout_spec (layout : List NpuArgInfo)
    (args : List (Option KArg)) (buf : List Nat)
    (h : layoutMatches layout args = true) :
    push_args_from_layout buf args layout =
      .ok (buf ++ refPack buf.length layout args) := by
  induction layout generalizing args buf with
  | nil => cases args <;> simp [push_args_from_layout, refPack]
  | cons l ls ih =>
    cases args with
    | nil => simp [layoutMatches] at h
    | cons a as_ =>
      cases a with
      | none => simp [layoutMatches] at h
      | some k =>
        rw [layoutMatches, Bool.and_eq_true] at h
        obtain ⟨h1, h2⟩ := h
        have hread := slotMatches_readAs k l.type h1
        have halpos := NpuArgType.align_pos l.type
        have hle := le_alignUp buf.length l.type.align halpos
        rw [push_args_from_layout, push_arg_by_type, hread.1]
        show push_args_from_layout (pushBytes buf k.bytes l.type.align) as_ ls = _
        rw [ih as_ _ h2]
        rw [pushBytes_length buf k.bytes l.type.align halpos, hread.2]
        rw [refPack]
        simp [pushBytes, List.append_assoc]

theorem specIntStr_ne_one {v : Int} (h : v ≠ 1) : specIntStr v ≠ ":1" := by
  unfold specIntStr
  rw [if_neg h]
  split <;> decide

/-! ## Claims -/

/-- C9: classifying a present optional containing `v` produces exactly the
same signature tokens and payload entries as classifying `v` directly (the
results agree as whole classifier states, errors included); classifying an
absent optional produces exactly one `nullopt` token, pushes nothing to
`data_pointers` or `kernel_args`, and advances the static-signature cursor
by exactly one position. -/
theorem c9_optional_flattening (ssig : StaticSignature) (s : ClfState)
    (v : ArgVal) :
    handleArg ssig (.optSome v) s = handleArg ssig v s ∧
    handleArg ssig .optNone s =
      .ok { s with signature := s.signature ++ ["nullopt"], idx := s.idx + 1 } :=
  ⟨rfl, rfl⟩

/-- C1 counterexample: the claim says no CONSTEXPR argument is elided from
the payload, but classifying the integer 7 against a CONSTEXPR slot emits
the literal token `"7"` and leaves `kernel_args` empty — the argument *is*
elided (`ArgHandle::handle_constexpr` never pushes to `kernel_args`). -/
theorem c1_counterexample :
    ¬ (∀ s', handleArg ⟨1, [.CONSTEXPR]⟩ (.intArg "i32" 7 4) ⟨[], [], [], 0⟩ =
        .ok s' → s'.kernel_args ≠ []) := by
  intro hclaim
  exact hclaim ⟨[], [], ["7"], 1⟩ rfl rfl

/-- C1 (amended): an integral scalar classified SPECIALIZED with value 1
contributes `<T>:1` to the signature and nothing to the payload; a
SPECIALIZED integral with value ≠ 1 and a NON_CONSTEXPR scalar each
contribute exactly one payload entry; a CONSTEXPR scalar contributes its
printed literal to the signature and — like the value-1 case — no payload
entry. -/
theorem c1_specialization_elision (ssig : StaticSignature) (s : ClfState)
    (d : String) (v : Int) (sz : Nat) :
    (ssig.atIdx s.idx = .ok .SPECIALIZED → v = 1 →
      handleArg ssig (.intArg d v sz) s =
        .ok { s with signature := s.signature ++ [d ++ ":1"],
                     idx := s.idx + 1 }) ∧
    (ssig.atIdx s.idx = .ok .SPECIALIZED → v ≠ 1 →
      handleArg ssig (.intArg d v sz) s =
        .ok { s with kernel_args := s.kernel_args ++ [.ival v sz],
                     signature := s.signature ++ [d ++ specIntStr v],
                     idx := s.idx + 1 }) ∧
    (ssig.atIdx s.idx = .ok .NON_CONSTEXPR →
      handleArg ssig (.intArg d v sz) s =
        .ok { s with kernel_args := s.kernel_args ++ [.ival v sz],
                     signature := s.signature ++ [d],
                     idx := s.idx + 1 }) ∧
    (ssig.atIdx s.idx = .ok .CONSTEXPR →
      handleArg ssig (.intArg d v sz) s =
        .ok { s with signature := s.signature ++ [toString v],
                     idx := s.idx + 1 }) := by
  refine ⟨?_, ?_, ?_, ?_⟩
  · intro ht hv
    subst hv
    simp [handleArg, ht, specIntStr]
    rfl
  · intro ht hv
    simp [handleArg, ht, specIntStr_ne_one hv]
    rfl
  · intro ht
    simp [handleArg, ht]
    rfl
  · intro ht
    simp [handleArg, ht]
    rfl

/-- Witness for `c1_specialization_elision` at a concrete input. -/
theorem c1_specialization_elision_witness :
    (⟨2, [.SPECIALIZED, .SPECIALIZED]⟩ : StaticSignature).atIdx 0 =
      .ok .SPECIALIZED ∧
    handleArg ⟨2, [.SPECIALIZED, .SPECIALIZED]⟩ (.intArg "i64" 1 8)
        ⟨[], [], [], 0⟩ =
      .ok ⟨[], [], ["i64:1"], 1⟩ :=
  ⟨rfl, by
    have h := (c1_specialization_elision ⟨2, [.SPECIALIZED, .SPECIALIZED]⟩
      ⟨[], [], [], 0⟩ "i64" 1 8).1 rfl rfl
    simpa using h⟩

/-- C5: a kernel handle starts `Unloaded`; launching an unloaded handle with
a failing backend load propagates the error and performs no transition (the
source assigns `loaded_ = true` only after `load_kernel` returns), so the
next launch invokes the load again; launching an unloaded handle with a
succeeding load performs the one transition to `Loaded`; launching a loaded
handle performs no load and leaves it `Loaded`; every successful launch ends
with the handle `Loaded`.  `launch`/`launch_with_signature` are the only
operations that touch `loaded_`, so the transition is triggered only by a
launch. -/
theorem c5_handle_state_machine (dir kname : String) (k : TKernel)
    (loadFn : Except String Nat) (warpSize sharedMem gx gy gz w : Nat) :
    (mkTKernel dir kname).loaded = false ∧
    (∀ e, k.loaded = false → loadFn = .error e →
      launch_with_signature warpSize loadFn sharedMem k gx gy gz w =
        .error e) ∧
    (∀ h, k.loaded = false → loadFn = .ok h →
      launch_with_signature warpSize loadFn sharedMem k gx gy gz w =
        .ok ({ k with handle := some h, loaded := true },
          ⟨w * warpSize, 1, 1, gx, gy, gz, sharedMem⟩, true)) ∧
    (k.loaded = true →
      launch_with_signature warpSize loadFn sharedMem k gx gy gz w =
        .ok (k, ⟨w * warpSize, 1, 1, gx, gy, gz, sharedMem⟩, false)) ∧
    (∀ k' r inv,
      launch_with_signature warpSize loadFn sharedMem k gx gy gz w =
        .ok (k', r, inv) → k'.loaded = true) := by
  refine ⟨rfl, ?_, ?_, ?_, ?_⟩
  · intro e hl he
    simp [launch_with_signature, lazy_init_handle, hl, he]
  · intro h hl he
    simp [launch_with_signature, lazy_init_handle, hl, he]
  · intro hl
    simp [launch_with_signature, lazy_init_handle, hl]
  · intro k' r inv hok
    unfold launch_with_signature lazy_init_handle at hok
    by_cases hl : k.loaded
    · simp [hl] at hok
      obtain ⟨hk, -⟩ := hok
      rw [← hk]
      exact hl
    · simp [hl] at hok
      cases hload : loadFn with
      | error e => rw [hload] at hok; simp at hok
      | ok h =>
        rw [hload] at hok
        simp at hok
        obtain ⟨hk, -⟩ := hok
        rw [← hk]

/-- Witness for `c5_handle_state_machine` at a concrete input. -/
theorem c5_handle_state_machine_witness :
    (mkTKernel "/cache/dir" "add_kernel").loaded = false ∧
    launch_with_signature 32 (.ok 7) 0 (mkTKernel "/cache/dir" "add_kernel")
        128 1 1 8 =
      .ok (⟨"/cache/dir", "add_kernel", true, some 7⟩,
        ⟨256, 1, 1, 128, 1, 1, 0⟩, true) := by
  have h := c5_handle_state_machine "/cache/dir" "add_kernel"
    (mkTKernel "/cache/dir" "add_kernel") (.ok 7) 32 0 128 1 1 8
  exact ⟨h.1, by simpa [mkTKernel] using h.2.2.1 7 rfl rfl⟩

/-- C4: on a cache miss, a failing bridge compilation propagates the error,
installs nothing (the cache is returned unchanged), and a later call with
the same key invokes the bridge again; an entry is installed only when the
bridge returns a directory, in which case exactly that entry is emplaced
under the key. -/
theorem c4_compile_failure_no_install
    (compileFn : String → Int → Int → Int → Except String String)
    (fname : String) (cache : List (String × KernelEntry))
    (sig : String) (w st dev : Int)
    (hmiss : lookupCache cache (kernelKey sig dev) = none) :
    (∀ e, compileFn sig w st dev = .error e →
      get_kernel compileFn fname cache sig w st dev = ⟨.error e, cache, 1⟩ ∧
      (get_kernel compileFn fname
        (get_kernel compileFn fname cache sig w st dev).cache
        sig w st dev).compiles = 1) ∧
    (∀ dir, compileFn sig w st dev = .ok dir →
      get_kernel compileFn fname cache sig w st dev =
        ⟨.ok ⟨dir, fname⟩,
          cache ++ [(kernelKey sig dev, ⟨dir, fname⟩)], 1⟩) := by
  constructor
  · intro e he
    have h1 : get_kernel compileFn fname cache sig w st dev =
        ⟨.error e, cache, 1⟩ := by
      simp [get_kernel, hmiss, he]
    refine ⟨h1, ?_⟩
    rw [h1]
    simp [get_kernel, hmiss, he]
  · intro dir hd
    simp [get_kernel, hmiss, hd]

/-- Witness for `c4_compile_failure_no_install` at a concrete input. -/
theorem c4_compile_failure_no_install_witness :
    lookupCache [] (kernelKey "*fp32,i64" 0) = none ∧
    get_kernel (fun _ _ _ _ => .error "CompilerError: syntax error")
        "add_kernel" [] "*fp32,i64" 8 1 0 =
      ⟨.error "CompilerError: syntax error", [], 1⟩ := by
  have h := (c4_compile_failure_no_install
    (fun _ _ _ _ => .error "CompilerError: syntax error")
    "add_kernel" [] "*fp32,i64" 8 1 0 rfl).1
    "CompilerError: syntax error" rfl
  exact ⟨rfl, h.1⟩

/-- C10: the overload-cache key is `signature ++ ";" ++ device` —
`num_warps`/`num_stages` are not part of it.  Starting from an empty cache,
a first call with `(w1, s1)` compiles once and installs the entry built from
the bridge's directory; a second call with the same signature and device but
any other `(w2, s2)` performs no compilation and returns that same entry;
launching the cached kernel with the second invocation's `num_warps`
recomputes `block_x = num_warps * WARP_SIZE` from it. -/
theorem c10_overload_key_ignores_warps
    (compileFn : String → Int → Int → Int → Except String String)
    (fname sig dir : String) (dev w1 s1 s2 : Int) (w2 : Nat)
    (loadFn : Except String Nat) (warpSize sharedMem gx gy gz : Nat)
    (hc : compileFn sig w1 s1 dev = .ok dir) :
    get_kernel compileFn fname [] sig w1 s1 dev =
      ⟨.ok ⟨dir, fname⟩, [(kernelKey sig dev, ⟨dir, fname⟩)], 1⟩ ∧
    get_kernel compileFn fname
        (get_kernel compileFn fname [] sig w1 s1 dev).cache
        sig (w2 : Int) s2 dev =
      ⟨.ok ⟨dir, fname⟩, [(kernelKey sig dev, ⟨dir, fname⟩)], 0⟩ ∧
    (∀ k' r inv,
      launch_with_signature warpSize loadFn sharedMem
          (mkTKernel dir fname) gx gy gz w2 = .ok (k', r, inv) →
      r.blockX = w2 * warpSize) := by
  have h1 : get_kernel compileFn fname [] sig w1 s1 dev =
      ⟨.ok ⟨dir, fname⟩, [(kernelKey sig dev, ⟨dir, fname⟩)], 1⟩ := by
    simp [get_kernel, lookupCache, hc]
  refine ⟨h1, ?_, ?_⟩
  · rw [h1]
    simp [get_kernel, lookupCache]
  · intro k' r inv hok
    unfold launch_with_signature lazy_init_handle mkTKernel at hok
    cases hload : loadFn with
    | error e => rw [hload] at hok; simp at hok
    | ok h =>
      rw [hload] at hok
      simp at hok
      obtain ⟨-, hr, -⟩ := hok
      rw [← hr]

/-- Witness for `c10_overload_key_ignores_warps` at a concrete input. -/
theorem c10_overload_key_ignores_warps_witness :
    (fun (_ : String) (_ _ _ : Int) =>
        (Except.ok "/cache/dirA" : Except String String))
        "*fp32,i64" 8 1 0 = .ok "/cache/dirA" ∧
    get_kernel (fun _ _ _ _ => .ok "/cache/dirA") "add_kernel"
        (get_kernel (fun _ _ _ _ => .ok "/cache/dirA") "add_kernel" []
          "*fp32,i64" 8 1 0).cache
        "*fp32,i64" (4 : Nat) 3 0 =
      ⟨.ok ⟨"/cache/dirA", "add_kernel"⟩,
        [(kernelKey "*fp32,i64" 0, ⟨"/cache/dirA", "add_kernel"⟩)], 0⟩ := by
  have h := c10_overload_key_ignores_warps
    (fun _ _ _ _ => .ok "/cache/dirA") "add_kernel" "*fp32,i64" "/cache/dirA"
    0 8 1 3 4 (.ok 9) 1 0 64 1 1 rfl
  exact ⟨rfl, h.2.1⟩

/-- The schedule exhibiting the unguarded-cache race: both callers pass the
lookup before either installs. -/
def c3Sched : List Bool := [false, true, false, false, true, true]

/-- C3 (code bug): `overloads_` is a plain `mutable std::unordered_map` with
no lock, so two callers with the same `(signature, device)` can both miss,
and the bridge compiles twice — the spec's at-most-once-compile contract
does not hold.  Under the interleaving `c3Sched` (caller 0 finds-miss,
caller 1 finds-miss, caller 0 compiles and installs, caller 1 compiles and
then fails its emplace), the model counts two compilations and caller 1
raises instead of observing the installed handle. -/
theorem c3_unguarded_cache_double_compile :
    runSched "/cache/dirA" "add_kernel" "*fp32,i64;0" c3Sched
        ⟨[], .atFind, .atFind, 0⟩ =
      ⟨[("*fp32,i64;0", ⟨"/cache/dirA", "add_kernel"⟩)],
        .finished ⟨"/cache/dirA", "add_kernel"⟩,
        .raised "Unable to emplace the kernel into TritonJITFunction cache",
        2⟩ := by
  decide

/-- C7: configuring shared memory for a loaded GPU kernel fails with the
resource-limit error when the requirement exceeds the device's opt-in
limit; otherwise, when both the requirement and the opt-in limit exceed
48 KiB (49152 bytes), the kernel is set to prefer shared memory and its
max-dynamic-shared attribute is set to the opt-in limit minus the kernel's
static shared usage; in all remaining cases no attribute is touched. -/
theorem c7_shared_memory_config (dev : CudaDevice)
    (sharedStatic required : Nat) :
    (required > dev.sharedOptin →
      configure_shared_memory dev sharedStatic required =
        .error ("OutOfResources: Requested shared memory (" ++
          toString required ++ " bytes) exceeds GPU's maximum (" ++
          toString dev.sharedOptin ++ " bytes)")) ∧
    (required ≤ dev.sharedOptin → required > 49152 → dev.sharedOptin > 49152 →
      configure_shared_memory dev sharedStatic required =
        .ok ⟨true, some ((dev.sharedOptin : Int) - (sharedStatic : Int))⟩) ∧
    (required ≤ dev.sharedOptin →
      ¬ (required > 49152 ∧ dev.sharedOptin > 49152) →
      configure_shared_memory dev sharedStatic required = .ok ⟨false, none⟩) := by
  refine ⟨?_, ?_, ?_⟩
  · intro hgt
    simp [configure_shared_memory, hgt]
  · intro hle h1 h2
    have : ¬ required > dev.sharedOptin := by omega
    simp [configure_shared_memory, this, h1, h2]
  · intro hle hno
    have : ¬ required > dev.sharedOptin := by omega
    simp [configure_shared_memory, this, hno]

/-- Witness for `c7_shared_memory_config` at a concrete input. -/
theorem c7_shared_memory_config_witness :
    (60000 ≤ 101376 ∧ 60000 > 49152 ∧ 101376 > 49152) ∧
    configure_shared_memory ⟨8, 0, 101376, 167936⟩ 1024 60000 =
      .ok ⟨true, some 100352⟩ := by
  have h := (c7_shared_memory_config ⟨8, 0, 101376, 167936⟩ 1024 60000).2.1
    (by decide) (by decide) (by decide)
  exact ⟨⟨by decide, by decide, by decide⟩, by simpa using h⟩

/-- C6 counterexample: the claim's "fails if and only if the architectures
differ" is too strong — with matching architectures (`8*10+0 = 80`) the load
still fails when the artifact's shared-memory requirement (60000 bytes)
exceeds the device's opt-in limit (49152 bytes). -/
theorem c6_counterexample :
    (⟨8, 0, 49152, 102400⟩ : CudaDevice).major * 10 +
        (⟨8, 0, 49152, 102400⟩ : CudaDevice).minor =
      (⟨60000, 80⟩ : CudaKernelMetadata).arch ∧
    cuda_load_kernel ⟨8, 0, 49152, 102400⟩ (some ⟨60000, 80⟩) true 0 =
      .error ("OutOfResources: Requested shared memory (60000 bytes) " ++
        "exceeds GPU's maximum (49152 bytes)") := by
  constructor
  · rfl
  · rfl

/-- C6 (amended): given readable metadata, a successful module load, and a
shared-memory requirement within the device's opt-in limit, loading fails
if and only if the device's compute capability `major*10 + minor` differs
from the metadata's `target.arch`; on a mismatch the raised message
contains both the device's value and the metadata's value. -/
theorem c6_arch_check (dev : CudaDevice) (m : CudaKernelMetadata)
    (sharedStatic : Nat) (hshared : m.shared ≤ dev.sharedOptin) :
    ((∃ e, cuda_load_kernel dev (some m) true sharedStatic = .error e) ↔
      dev.major * 10 + dev.minor ≠ m.arch) ∧
    (dev.major * 10 + dev.minor ≠ m.arch →
      ∃ e, cuda_load_kernel dev (some m) true sharedStatic = .error e ∧
        strContains e (toString (dev.major * 10 + dev.minor)) ∧
        strContains e (toString m.arch)) := by
  have hnot : ¬ m.shared > dev.sharedOptin := by omega
  by_cases harch : dev.major * 10 + dev.minor = m.arch
  · refine ⟨?_, fun hne => absurd harch hne⟩
    simp only [harch, ne_eq, not_true_eq_false, iff_false, not_exists]
    intro e he
    rw [cuda_load_kernel] at he
    simp [harch] at he
    rw [configure_shared_memory] at he
    rw [if_neg hnot] at he
    split at he <;> simp at he
  · refine ⟨?_, ?_⟩
    · simp only [ne_eq, harch, not_false_eq_true, iff_true]
      refine ⟨"Compute architecture mismatch! Device has sm_" ++
        (toString (dev.major * 10 + dev.minor) ++
          (", kernel requires sm_" ++ toString m.arch)), ?_⟩
      simp [cuda_load_kernel, harch]
    · intro _
      refine ⟨"Compute architecture mismatch! Device has sm_" ++
        (toString (dev.major * 10 + dev.minor) ++
          (", kernel requires sm_" ++ toString m.arch)), ?_, ?_, ?_⟩
      · simp [cuda_load_kernel, harch]
      · exact ⟨"Compute architecture mismatch! Device has sm_",
          ", kernel requires sm_" ++ toString m.arch, rfl⟩
      · refine ⟨"Compute architecture mismatch! Device has sm_" ++
          (toString (dev.major * 10 + dev.minor) ++ ", kernel requires sm_"),
          "", ?_⟩
        apply String.ext
        simp [String.data_append]

/-- Witness for `c6_arch_check` at a concrete input. -/
theorem c6_arch_check_witness :
    (32768 ≤ 49152 : Prop) ∧
    ((∃ e, cuda_load_kernel ⟨9, 0, 49152, 102400⟩ (some ⟨32768, 80⟩) true 0 =
        .error e) ↔ (9 * 10 + 0 ≠ 80)) := by
  have h := (c6_arch_check ⟨9, 0, 49152, 102400⟩ ⟨32768, 80⟩ 0
    (by decide)).1
  exact ⟨by decide, h⟩

theorem leBytes_zero (n : Nat) : leBytes n 0 = List.replicate n 0 := by
  induction n with
  | zero => rfl
  | succ n ih => simp [leBytes, ih, List.replicate_succ]

/-- Specification-side byte image of an NPU launch buffer (§4.1.2 of the
spec): the driver-acquired `ffts` address at `[0,8)`, a null sync-lock at
`[8,16)`, a null workspace at `[16,24)`, the user arguments in declaration
order from offset 24 each padded up to its natural alignment (`refPack`),
and — after padding to 4 — `grid_x, grid_y, grid_z` as three 32-bit
integers. -/
def specNpuBuffer (ffts gx gy gz : Nat) (layout : List NpuArgInfo)
    (args : List (Option KArg)) : List Nat :=
  let user := refPack 24 layout args
  let m := 24 + user.length
  leBytes 8 ffts ++ (List.replicate 8 0 ++ (List.replicate 8 0 ++
    (user ++ (List.replicate (alignUp m 4 - m) 0 ++
      (leBytes 4 (gx % 2 ^ 32) ++ (leBytes 4 (gy % 2 ^ 32) ++
        leBytes 4 (gz % 2 ^ 32)))))))

theorem setGrid_sys_refPack (ffts gx gy gz : Nat) (layout : List NpuArgInfo)
    (args : List (Option KArg)) :
    setGrid (sysBytes ffts ++ refPack 24 layout args) gx gy gz =
      specNpuBuffer ffts gx gy gz layout args := by
  have hlen : (sysBytes ffts ++ refPack 24 layout args).length =
      24 + (refPack 24 layout args).length := by
    simp [sysBytes_length]
  rw [setGrid, pushBytes, hlen]
  simp only [specNpuBuffer, sysBytes, leBytes_zero, List.append_assoc]

/-- C8: on an NPU launch whose slots are type-compatible with the supplied
argument layout, the packed buffer handed to the driver is exactly the
spec's image — `ffts` at `[0,8)`, null sync-lock at `[8,16)`, null
workspace at `[16,24)`, then the user arguments in declaration order
aligned to their natural alignment, and finally the grid as three 32-bit
integers; the block count is `grid_x * grid_y * grid_z` (reduced mod
`2^32` as by `uint32_t` arithmetic; equal to the plain product whenever it
fits), and the backend's `WARP_SIZE` is 1, so block dimensions never enter
the block count. -/
theorem c8_npu_launch_buffer (sig : String) (ffts gx gy gz blx bly blz : Nat)
    (layout : List NpuArgInfo) (args : List (Option KArg))
    (hmatch : layoutMatches layout args = true) (hne : layout ≠ []) :
    npu_launch_kernel ffts gx gy gz blx bly blz (some args) sig
        (some layout) =
      .ok ⟨(gx * gy * gz) % 2 ^ 32, specNpuBuffer ffts gx gy gz layout args⟩ ∧
    npuWarpSize = 1 ∧
    (gx * gy * gz < 2 ^ 32 → (gx * gy * gz) % 2 ^ 32 = gx * gy * gz) := by
  refine ⟨?_, rfl, fun hlt => Nat.mod_eq_of_lt hlt⟩
  have hpush := push_args_from_layout_spec layout args (sysBytes ffts) hmatch
  rw [sysBytes_length] at hpush
  simp only [npu_launch_kernel, hne, if_pos, ite_true, ne_eq,
    not_false_eq_true, pure, Except.pure, bind, Except.bind]
  rw [hpush]
  simp only [bind, Except.bind]
  rw [setGrid_sys_refPack]

/-- Witness for `c8_npu_launch_buffer` at a concrete input. -/
theorem c8_npu_launch_buffer_witness :
    layoutMatches [⟨.POINTER, 8⟩, ⟨.I64, 8⟩]
        [some (.ptr 4096), some (.ival 5 8), some (.ptr 0)] = true ∧
    ([⟨.POINTER, 8⟩, ⟨.I64, 8⟩] : List NpuArgInfo) ≠ [] ∧
    npu_launch_kernel 42 128 1 1 256 1 1
        (some [some (.ptr 4096), some (.ival 5 8), some (.ptr 0)])
        "*fp32:16,i64,1024" (some [⟨.POINTER, 8⟩, ⟨.I64, 8⟩]) =
      .ok ⟨(128 * 1 * 1) % 2 ^ 32,
        specNpuBuffer 42 128 1 1 [⟨.POINTER, 8⟩, ⟨.I64, 8⟩]
          [some (.ptr 4096), some (.ival 5 8), some (.ptr 0)]⟩ :=
  ⟨by decide, by decide,
    (c8_npu_launch_buffer "*fp32:16,i64,1024" 42 128 1 1 256 1 1
      [⟨.POINTER, 8⟩, ⟨.I64, 8⟩]
      [some (.ptr 4096), some (.ival 5 8), some (.ptr 0)]
      (by decide) (by decide)).1⟩

/-- C2 counterexample: the classifier elides a SPECIALIZED integer of
value 1 from the payload but still emits the token `i32:1`, and
`parse_signature` strips the `:1` suffix and produces an `I32` layout entry
for it.  For the pack `(i32 SPECIALIZED = 1, i64 NON_CONSTEXPR = 5)` the
payload is `[i64 5, scratch]` while the parsed layout is `[I32, I64]`, so
the launch buffer reads the i64 slot as a 32-bit value and the scratch slot
as a 64-bit value — it is *not* `system words ++ the single runtime
argument (i64 5) ++ grid`, refuting the claim's "contains exactly the
non-constexpr runtime arguments in declaration order". -/
theorem c2_counterexample :
    classifyPack ⟨2, [.SPECIALIZED, .NON_CONSTEXPR]⟩
        [.intArg "i32" 1 4, .intArg "i64" 5 8] =
      .ok ⟨[0], [.ival 5 8, .ptr 0], ["i32:1", "i64"], 2⟩ ∧
    joinSig ["i32:1", "i64"] = "i32:1,i64" ∧
    npu_launch_kernel 42 2 1 1 2 1 1
        (some [some (.ival 5 8), some (.ptr 0)]) "i32:1,i64" none =
      .ok ⟨2,
        [42, 0, 0, 0, 0, 0, 0, 0,
         0, 0, 0, 0, 0, 0, 0, 0,
         0, 0, 0, 0, 0, 0, 0, 0,
         5, 0, 0, 0, 0, 0, 0, 0,
         0, 0, 0, 0, 0, 0, 0, 0,
         2, 0, 0, 0, 1, 0, 0, 0, 1, 0, 0, 0]⟩ ∧
    ([42, 0, 0, 0, 0, 0, 0, 0,
      0, 0, 0, 0, 0, 0, 0, 0,
      0, 0, 0, 0, 0, 0, 0, 0,
      5, 0, 0, 0, 0, 0, 0, 0,
      0, 0, 0, 0, 0, 0, 0, 0,
      2, 0, 0, 0, 1, 0, 0, 0, 1, 0, 0, 0] : List Nat) ≠
      sysBytes 42 ++ (leBytes 8 5 ++
        (leBytes 4 2 ++ (leBytes 4 1 ++ leBytes 4 1))) := by
  refine ⟨rfl, rfl, rfl, by decide⟩

/-- C2 (amended): when the NPU backend launches without `arg_layout`
metadata, it derives the layout by parsing the dynamic signature token by
token — `*…` → pointer, `i32`/`u32` → 32-bit integer, `i64`/`u64` → 64-bit
integer, `fp32` → float, `fp64` → double, `fp16`/`bf16` → float (promoted),
numeric-literal and `nullopt` tokens → no entry (note a scalar token with a
`:1` suffix still yields an entry although its argument was elided from the
payload).  Whenever the supplied slots are type-compatible with that parsed
layout one-to-one in declaration order — which for classifier-produced
packs means no integral SPECIALIZED argument had value 1 — the packed
buffer is exactly the system words, those runtime arguments in declaration
order each at its natural alignment, and the grid appended. -/
theorem c2_signature_parse_packing (sig : String)
    (ffts gx gy gz blx bly blz : Nat) (args : List (Option KArg))
    (hsig : sig ≠ "")
    (hmatch : layoutMatches (parse_signature sig) args = true) :
    npu_launch_kernel ffts gx gy gz blx bly blz (some args) sig none =
      .ok ⟨(gx * gy * gz) % 2 ^ 32,
        specNpuBuffer ffts gx gy gz (parse_signature sig) args⟩ ∧
    (∀ cs, classifyTok ('*' :: cs) = some ⟨.POINTER, 8⟩) ∧
    parse_signature "i32" = [⟨.I32, 4⟩] ∧
    parse_signature "u32" = [⟨.I32, 4⟩] ∧
    parse_signature "i64" = [⟨.I64, 8⟩] ∧
    parse_signature "u64" = [⟨.I64, 8⟩] ∧
    parse_signature "fp32" = [⟨.F32, 4⟩] ∧
    parse_signature "fp64" = [⟨.F64, 8⟩] ∧
    parse_signature "fp16" = [⟨.F32, 4⟩] ∧
    parse_signature "bf16" = [⟨.F32, 4⟩] ∧
    parse_signature "1024" = [] ∧
    parse_signature "-5" = [] ∧
    parse_signature "nullopt" = [] := by
  refine ⟨?_, ?_, by decide, by decide, by decide, by decide, by decide,
    by decide, by decide, by decide, by decide, by decide, by decide⟩
  · have hpush := push_args_from_layout_spec (parse_signature sig) args
      (sysBytes ffts) hmatch
    rw [sysBytes_length] at hpush
    simp only [npu_launch_kernel, hsig, ite_true, ne_eq, not_false_eq_true,
      pure, Except.pure, bind, Except.bind]
    rw [hpush]
    simp only [bind, Except.bind]
    rw [setGrid_sys_refPack]
  · intro cs
    have hnn : ('*' :: cs) ≠ "nullopt".toList := by
      intro h
      injection h with h1 _
      exact absurd h1 (by decide)
    simp [classifyTok, hnn, isDigitCh, List.takeWhile]

/-- Witness for `c2_signature_parse_packing` at a concrete input (the
classifier output for a tensor at a 16-byte-aligned address plus a
NON_CONSTEXPR `i64` and a CONSTEXPR `1024`: tokens
`*fp32:16, i64, 1024`, payload `[ptr, i64, scratch]`). -/
theorem c2_signature_parse_packing_witness :
    ("*fp32:16,i64,1024" ≠ "") ∧
    layoutMatches (parse_signature "*fp32:16,i64,1024")
      [some (.ptr 4096), some (.ival 5 8), some (.ptr 0)] = true ∧
    npu_launch_kernel 42 128 1 1 256 1 1
        (some [some (.ptr 4096), some (.ival 5 8), some (.ptr 0)])
        "*fp32:16,i64,1024" none =
      .ok ⟨(128 * 1 * 1) % 2 ^ 32,
        specNpuBuffer 42 128 1 1 (parse_signature "*fp32:16,i64,1024")
          [some (.ptr 4096), some (.ival 5 8), some (.ptr 0)]⟩ :=
  ⟨by decide, by decide,
    (c2_signature_parse_packing "*fp32:16,i64,1024" 42 128 1 1 256 1 1
      [some (.ptr 4096), some (.ival 5 8), some (.ptr 0)]
      (by decide) (by decide)).1⟩

end TritonJitVerif
